import Mathlib

/-!
Verification of the e-commerce backend (apps/products, apps/orders):
a shallow embedding of the models, serializers and views, followed by
theorems about the invariants stated in the specification.

Money amounts are modelled as exact rationals, database tables as lists
of records, and each HTTP operation as a pure function on a state record.
Randomness (uuid suffix) and the current date are passed as parameters.
-/

namespace Shop

/-- Character-level slice, mirroring Python string slicing s[:n]. -/
def strTake (s : String) (n : Nat) : String := String.mk (s.data.take n)

/-- Character-level uppercase, mirroring Python str.upper() on ASCII data. -/
def strUpper (s : String) : String := String.mk (s.data.map Char.toUpper)

/-- Modelled from the spec: the Category model (apps/products/models.py is not
under src). Per the spec it is soft-deletable with an is_active flag, a slug
and a deletion timestamp; only the fields the views read are modelled. -/
structure Category where
  id : Nat
  name : String
  slug : String
  is_active : Bool
  is_deleted : Bool
  deleted_at : Option Nat
deriving Repr, DecidableEq

/-- Modelled from the spec: the Product model (apps/products/models.py is not
under src). Per the spec it is a catalog entry with price, stock quantity,
slug and a soft-delete flag; the remaining fields are the ones the views
under src filter or search on. -/
structure Product where
  id : Nat
  name : String
  slug : String
  description : String
  short_description : String
  tags : String
  price : ℚ
  stock_quantity : Int
  category_id : Nat
  is_active : Bool
  is_featured : Bool
  is_deleted : Bool
  deleted_at : Option Nat
deriving Repr, DecidableEq

/-- Modelled from the spec: the ProductVariant model (apps/products/models.py
is not under src); the serializers under src read its id, product, price and
is_active fields. -/
structure ProductVariant where
  id : Nat
  product_id : Nat
  price : ℚ
  is_active : Bool
deriving Repr, DecidableEq

/-- Modelled from the spec and test_category_soft_delete: SoftDeleteModel.delete
(apps/core/models.py is not under src) marks the row deleted and stamps
deleted_at with the current time instead of removing the row. -/
def Category.softDelete (c : Category) (now : Nat) : Category :=
  { c with is_deleted := true, deleted_at := some now }

/-- Order model (src/apps/orders/models.py). DecimalFields are rationals,
datetimes are Option Nat, foreign keys are ids. -/
structure Order where
  id : Nat
  user : Nat
  order_number : String
  status : String
  payment_status : String
  subtotal : ℚ
  tax_amount : ℚ
  shipping_amount : ℚ
  discount_amount : ℚ
  total_amount : ℚ
  billing_first_name : String
  billing_last_name : String
  billing_email : String
  billing_phone : String
  billing_address_line_1 : String
  billing_address_line_2 : String
  billing_city : String
  billing_state : String
  billing_postal_code : String
  billing_country : String
  shipping_first_name : String
  shipping_last_name : String
  shipping_phone : String
  shipping_address_line_1 : String
  shipping_address_line_2 : String
  shipping_city : String
  shipping_state : String
  shipping_postal_code : String
  shipping_country : String
  notes : String
  tracking_number : String
  shipped_at : Option Nat
  delivered_at : Option Nat
  is_deleted : Bool
  deleted_at : Option Nat
deriving Repr, DecidableEq

/-- Order.generate_order_number: ORD-, the current date, and the first 8
characters of a fresh uuid string, uppercased. The date string and the uuid
string are parameters of the model. -/
def generate_order_number (dateStr uuidStr : String) : String :=
  "ORD-" ++ dateStr ++ "-" ++ strUpper (strTake uuidStr 8)

/-- Order.save: assigns a generated order number when the current one is the
empty string, and otherwise leaves it alone. -/
def Order.save (o : Order) (dateStr uuidStr : String) : Order :=
  if o.order_number = "" then
    { o with order_number := generate_order_number dateStr uuidStr }
  else o

/-- Order.can_be_cancelled (src/apps/orders/models.py). -/
def Order.can_be_cancelled (o : Order) : Bool :=
  o.status == "pending" || o.status == "confirmed" || o.status == "processing"

/-- OrderItem model (src/apps/orders/models.py). -/
structure OrderItem where
  order_id : Nat
  product_id : Nat
  product_variant_id : Option Nat
  quantity : Nat
  unit_price : ℚ
  total_price : ℚ
deriving Repr, DecidableEq

/-- OrderItem.save recomputes total_price from quantity and unit_price. -/
def OrderItem.save (it : OrderItem) : OrderItem :=
  { it with total_price := (it.quantity : ℚ) * it.unit_price }

/-- OrderStatusHistory model (src/apps/orders/models.py). -/
structure OrderStatusHistory where
  order_id : Nat
  status : String
  notes : String
  changed_by : Option Nat
deriving Repr, DecidableEq

/-- CartItem model (src/apps/orders/models.py); the one cart per user is
identified by the owning user id. -/
structure CartItem where
  cart_id : Nat
  product_id : Nat
  product_variant_id : Option Nat
  quantity : Nat
  unit_price : ℚ
  total_price : ℚ
deriving Repr, DecidableEq

/-- CartItem.save recomputes total_price from quantity and unit_price. -/
def CartItem.save (ci : CartItem) : CartItem :=
  { ci with total_price := (ci.quantity : ℚ) * ci.unit_price }

/-- The relational store: one list per table. -/
structure DB where
  categories : List Category
  products : List Product
  variants : List ProductVariant
  orders : List Order
  order_items : List OrderItem
  status_history : List OrderStatusHistory
  cart_items : List CartItem
deriving Repr, DecidableEq

/-- Product.objects.get(id=..., is_active=True, is_deleted=False). -/
def getActiveProduct (db : DB) (pid : Nat) : Option Product :=
  db.products.find? (fun p => p.id == pid && p.is_active && !p.is_deleted)

/-- Product.objects.get(id=...). -/
def getProduct (db : DB) (pid : Nat) : Option Product :=
  db.products.find? (fun p => p.id == pid)

/-- ProductVariant.objects.get(id=..., product=..., is_active=True). -/
def getActiveVariant (db : DB) (vid pid : Nat) : Option ProductVariant :=
  db.variants.find? (fun v => v.id == vid && v.product_id == pid && v.is_active)

/-- ProductVariant.objects.get(id=..., product=...). -/
def getVariant (db : DB) (vid pid : Nat) : Option ProductVariant :=
  db.variants.find? (fun v => v.id == vid && v.product_id == pid)

/-- product.save() after a field change: the row with the same pk is replaced. -/
def updateProductRow (ps : List Product) (p : Product) : List Product :=
  ps.map (fun q => if q.id == p.id then p else q)

/-- One entry of items_data handed to OrderCreateSerializer.create, and also
the validated_data of CartItemCreateSerializer. -/
structure OrderItemInput where
  product_id : Nat
  product_variant_id : Option Nat
  quantity : Nat
deriving Repr, DecidableEq

/-- Truthiness test written in the source as
(quote product_variant_id in item_data and item_data of it): the key must be
present and its value must be truthy, so a missing key, None and 0 all fail. -/
def hasVariant (i : OrderItemInput) : Bool :=
  match i.product_variant_id with
  | some v => v != 0
  | none => false

/-- The variant id read from the item when hasVariant holds. -/
def variantIdOf (i : OrderItemInput) : Nat := i.product_variant_id.getD 0

/-- The scalar fields validated by OrderCreateSerializer (its field list
without items). -/
structure OrderFields where
  billing_first_name : String
  billing_last_name : String
  billing_email : String
  billing_phone : String
  billing_address_line_1 : String
  billing_address_line_2 : String
  billing_city : String
  billing_state : String
  billing_postal_code : String
  billing_country : String
  shipping_first_name : String
  shipping_last_name : String
  shipping_phone : String
  shipping_address_line_1 : String
  shipping_address_line_2 : String
  shipping_city : String
  shipping_state : String
  shipping_postal_code : String
  shipping_country : String
  notes : String
deriving Repr, DecidableEq

/-- validated_data of OrderCreateSerializer: scalar fields plus items. -/
structure OrderCreateInput where
  fields : OrderFields
  items : List OrderItemInput
deriving Repr, DecidableEq

/-- First loop of OrderCreateSerializer.create: walk the items accumulating
quantity times unit price into the subtotal, failing on a missing active
product, a missing active variant, or a per-item stock shortfall. No stock is
decremented here, so every check reads the stored stock_quantity. -/
def computeSubtotal (db : DB) : List OrderItemInput → ℚ → Except String ℚ
  | [], acc => .ok acc
  | i :: rest, acc =>
    match getActiveProduct db i.product_id with
    | none => .error ("Product with id " ++ toString i.product_id ++ " not found.")
    | some product =>
      let priced : Except String ℚ :=
        if hasVariant i then
          match getActiveVariant db (variantIdOf i) product.id with
          | none => .error "Product variant not found."
          | some variant => .ok variant.price
        else .ok product.price
      match priced with
      | .error e => .error e
      | .ok unit_price =>
        if product.stock_quantity < (i.quantity : Int) then
          .error ("Insufficient stock for " ++ product.name ++ ".")
        else
          computeSubtotal db rest (acc + (i.quantity : ℚ) * unit_price)

/-- Unit price and stored variant id resolved in the second loop of
OrderCreateSerializer.create, where the variant lookup has no is_active
filter. -/
def resolveOrderItemPrice (db : DB) (i : OrderItemInput) (product : Product) :
    Except String (Option Nat × ℚ) :=
  if hasVariant i then
    match getVariant db (variantIdOf i) product.id with
    | none => .error "ProductVariant matching query does not exist."
    | some v => .ok (some v.id, v.price)
  else .ok (none, product.price)

/-- Second loop of OrderCreateSerializer.create: re-fetch the product, create
the OrderItem (whose save recomputes total_price), then decrement the stored
stock_quantity and save the product. No stock check happens in this loop. -/
def createOrderItems (orderId : Nat) : DB → List OrderItemInput → Except String DB
  | db, [] => .ok db
  | db, i :: rest =>
    match getProduct db i.product_id with
    | none => .error "Product matching query does not exist."
    | some product =>
      match resolveOrderItemPrice db i product with
      | .error e => .error e
      | .ok (vidOpt, unit_price) =>
        let item := OrderItem.save
          { order_id := orderId, product_id := product.id,
            product_variant_id := vidOpt, quantity := i.quantity,
            unit_price := unit_price, total_price := 0 }
        let product' := { product with
          stock_quantity := product.stock_quantity - (i.quantity : Int) }
        createOrderItems orderId
          { db with order_items := db.order_items ++ [item],
                    products := updateProductRow db.products product' }
          rest

/-- Order.objects.create inside OrderCreateSerializer.create: a pending order
with the computed amounts and the validated scalar fields; save fills in the
order number. -/
def mkOrder (oid uid : Nat) (f : OrderFields)
    (subtotal tax_amount shipping_amount discount_amount total_amount : ℚ)
    (dateStr uuidStr : String) : Order :=
  Order.save
    { id := oid, user := uid, order_number := "",
      status := "pending", payment_status := "pending",
      subtotal := subtotal, tax_amount := tax_amount,
      shipping_amount := shipping_amount, discount_amount := discount_amount,
      total_amount := total_amount,
      billing_first_name := f.billing_first_name,
      billing_last_name := f.billing_last_name,
      billing_email := f.billing_email,
      billing_phone := f.billing_phone,
      billing_address_line_1 := f.billing_address_line_1,
      billing_address_line_2 := f.billing_address_line_2,
      billing_city := f.billing_city,
      billing_state := f.billing_state,
      billing_postal_code := f.billing_postal_code,
      billing_country := f.billing_country,
      shipping_first_name := f.shipping_first_name,
      shipping_last_name := f.shipping_last_name,
      shipping_phone := f.shipping_phone,
      shipping_address_line_1 := f.shipping_address_line_1,
      shipping_address_line_2 := f.shipping_address_line_2,
      shipping_city := f.shipping_city,
      shipping_state := f.shipping_state,
      shipping_postal_code := f.shipping_postal_code,
      shipping_country := f.shipping_country,
      notes := f.notes, tracking_number := "",
      shipped_at := none, delivered_at := none,
      is_deleted := false, deleted_at := none }
    dateStr uuidStr

/-- OrderCreateSerializer.create together with its validate_items check:
compute the subtotal with per-item stock checks, derive tax (ten percent),
fixed shipping of 10.00 and zero discount, create the order, then create the
items while decrementing stock. An error anywhere rolls the transaction back,
which the Except error models. -/
def orderCreate (db : DB) (uid : Nat) (inp : OrderCreateInput)
    (dateStr uuidStr : String) : Except String (DB × Order) :=
  if inp.items.isEmpty then .error "Order must have at least one item."
  else
    match computeSubtotal db inp.items 0 with
    | .error e => .error e
    | .ok subtotal =>
      let tax_amount := subtotal * (1 / 10)
      let shipping_amount : ℚ := 10
      let discount_amount : ℚ := 0
      let total_amount := subtotal + tax_amount + shipping_amount - discount_amount
      let oid := db.orders.length
      let order := mkOrder oid uid inp.fields subtotal tax_amount
        shipping_amount discount_amount total_amount dateStr uuidStr
      let db1 := { db with orders := db.orders ++ [order] }
      match createOrderItems oid db1 inp.items with
      | .error e => .error e
      | .ok db2 => .ok (db2, order)

/-- The key of the unique_together constraint on cart_items: (cart, product,
product_variant). -/
def cartKey (cartId pid : Nat) (vid : Option Nat) (ci : CartItem) : Bool :=
  ci.cart_id == cartId && ci.product_id == pid && ci.product_variant_id == vid

/-- CartItem.objects lookup part of get_or_create. -/
def findCartItem (db : DB) (cartId pid : Nat) (vid : Option Nat) : Option CartItem :=
  db.cart_items.find? (cartKey cartId pid vid)

/-- cart_item.save() on the fetched row: the first row matching the key (the
unique_together constraint keeps at most one) is replaced. -/
def replaceFirstCartItem : List CartItem → (CartItem → Bool) → CartItem → List CartItem
  | [], _, _ => []
  | c :: rest, key, newc =>
    if key c then newc :: rest else c :: replaceFirstCartItem rest key newc

/-- Unit price and stored variant id resolved in CartItemCreateSerializer.create,
where the variant lookup keeps the is_active filter. -/
def resolveCartPrice (db : DB) (i : OrderItemInput) (product : Product) :
    Except String (Option Nat × ℚ) :=
  if hasVariant i then
    match getActiveVariant db (variantIdOf i) product.id with
    | none => .error "ProductVariant matching query does not exist."
    | some v => .ok (some v.id, v.price)
  else .ok (none, product.price)

/-- CartItemCreateSerializer.create: fetch the product, resolve the price,
then get_or_create on (cart, product, variant); an existing row has its
quantity incremented and is saved, otherwise a fresh row is created with the
requested quantity and the current price. -/
def cartAddItem (db : DB) (cartId : Nat) (i : OrderItemInput) :
    Except String (DB × CartItem) :=
  match getProduct db i.product_id with
  | none => .error "Product matching query does not exist."
  | some product =>
    match resolveCartPrice db i product with
    | .error e => .error e
    | .ok (vidOpt, unit_price) =>
      match findCartItem db cartId product.id vidOpt with
      | some existing =>
        let updated := CartItem.save { existing with quantity := existing.quantity + i.quantity }
        .ok ({ db with cart_items :=
                 replaceFirstCartItem db.cart_items (cartKey cartId product.id vidOpt) updated },
             updated)
      | none =>
        let newItem := CartItem.save
          { cart_id := cartId, product_id := product.id, product_variant_id := vidOpt,
            quantity := i.quantity, unit_price := unit_price, total_price := 0 }
        .ok ({ db with cart_items := db.cart_items ++ [newItem] }, newItem)

/-- Outcome of a DRF view call, as far as the claims need it. -/
inductive HttpResp where
  | created : Order → HttpResp
  | badRequest : String → HttpResp
deriving Repr, DecidableEq

/-- cart.items.all() for the cart owned by a user; the cart id is the user id
since each user owns exactly one cart. -/
def cartItemsOf (db : DB) (cartId : Nat) : List CartItem :=
  db.cart_items.filter (fun ci => ci.cart_id == cartId)

/-- The checkout view (src/apps/orders/views.py): reject an empty cart with
400, convert the cart rows to items_data, run OrderCreateSerializer; on
success delete the cart rows and append one pending history entry inside the
same transaction, on a serializer error return 400 with the store untouched
(the transaction rolls back). -/
def checkout (db : DB) (uid : Nat) (f : OrderFields) (dateStr uuidStr : String) :
    DB × HttpResp :=
  let items := cartItemsOf db uid
  if items.isEmpty then (db, .badRequest "Cart is empty.")
  else
    let itemInputs := items.map (fun ci =>
      { product_id := ci.product_id,
        product_variant_id := ci.product_variant_id,
        quantity := ci.quantity : OrderItemInput })
    match orderCreate db uid { fields := f, items := itemInputs } dateStr uuidStr with
    | .error e => (db, .badRequest e)
    | .ok (db1, order) =>
      let db2 := { db1 with
        cart_items := db1.cart_items.filter (fun ci => !(ci.cart_id == uid)) }
      let db3 := { db2 with
        status_history := db2.status_history ++
          [{ order_id := order.id, status := "pending",
             notes := "Order created", changed_by := some uid }] }
      (db3, .created order)

/-- order row update after a field change: the row with the same pk is
replaced. -/
def updateOrderRow (os : List Order) (o : Order) : List Order :=
  os.map (fun q => if q.id == o.id then o else q)

/-- OrderDetailView.perform_destroy: an order that can be cancelled is set to
cancelled, saved, and one cancelled history entry is appended; any other
order raises a validation error and nothing changes. -/
def orderCancel (db : DB) (o : Order) (uid : Nat) (dateStr uuidStr : String) :
    Except String DB :=
  if o.can_be_cancelled then
    let o' := Order.save { o with status := "cancelled" } dateStr uuidStr
    .ok { db with
      orders := updateOrderRow db.orders o',
      status_history := db.status_history ++
        [{ order_id := o.id, status := "cancelled",
           notes := "Order cancelled by user", changed_by := some uid }] }
  else .error "This order cannot be cancelled."

/-- The validated_data an order update request can carry: every writable
field of OrderSerializer, each optional. -/
structure OrderUpdateData where
  status : Option String
  payment_status : Option String
  billing_first_name : Option String
  billing_last_name : Option String
  billing_email : Option String
  billing_phone : Option String
  billing_address_line_1 : Option String
  billing_address_line_2 : Option String
  billing_city : Option String
  billing_state : Option String
  billing_postal_code : Option String
  billing_country : Option String
  shipping_first_name : Option String
  shipping_last_name : Option String
  shipping_phone : Option String
  shipping_address_line_1 : Option String
  shipping_address_line_2 : Option String
  shipping_city : Option String
  shipping_state : Option String
  shipping_postal_code : Option String
  shipping_country : Option String
  notes : Option String
  tracking_number : Option String
deriving Repr, DecidableEq

/-- OrderDetailView.perform_update: only notes, shipping_address_line_1 and
shipping_address_line_2 are copied from validated_data onto the instance,
then the instance is saved. -/
def performUpdateOrder (o : Order) (vd : OrderUpdateData) (dateStr uuidStr : String) :
    Order :=
  let o1 := match vd.notes with
    | some s => { o with notes := s }
    | none => o
  let o2 := match vd.shipping_address_line_1 with
    | some s => { o1 with shipping_address_line_1 := s }
    | none => o1
  let o3 := match vd.shipping_address_line_2 with
    | some s => { o2 with shipping_address_line_2 := s }
    | none => o2
  Order.save o3 dateStr uuidStr

/-- Case-insensitive substring test modelling the icontains lookup. -/
def icontains (hay needle : String) : Bool :=
  1 < ((strUpper hay).splitOn (strUpper needle)).length

/-- Base queryset of ProductListView: active, not deleted. -/
def productListQueryset (db : DB) : List Product :=
  db.products.filter (fun p => p.is_active && !p.is_deleted)

/-- Queryset of CategoryListView: active, not deleted. -/
def categoryListQueryset (db : DB) : List Category :=
  db.categories.filter (fun c => c.is_active && !c.is_deleted)

/-- CategoryDetailView lookup by slug inside its filtered queryset. -/
def categoryDetail (db : DB) (slug : String) : Option Category :=
  (categoryListQueryset db).find? (fun c => c.slug == slug)

/-- ProductDetailView lookup by slug inside its filtered queryset. -/
def productDetail (db : DB) (slug : String) : Option Product :=
  (productListQueryset db).find? (fun p => p.slug == slug)

/-- featured_products view: active, not deleted, featured, first ten. -/
def featuredProducts (db : DB) : List Product :=
  (db.products.filter (fun p => p.is_active && !p.is_deleted && p.is_featured)).take 10

/-- related_products view: products of the same category as the product found
by slug, excluding it, active and not deleted, first five; none models the
404 when the slug does not resolve. -/
def relatedProducts (db : DB) (slug : String) : Option (List Product) :=
  match productDetail db slug with
  | none => none
  | some p =>
    some (((db.products.filter (fun q =>
        q.category_id == p.category_id && q.is_active && !q.is_deleted)).filter
        (fun q => q.id != p.id)).take 5)

/-- product_search view: empty query gives no results, otherwise name,
description, short description or tags must contain the query, restricted to
active, not deleted rows. -/
def productSearch (db : DB) (query : String) : List Product :=
  if query = "" then []
  else db.products.filter (fun p =>
    (icontains p.name query || icontains p.description query ||
      icontains p.short_description query || icontains p.tags query) &&
    p.is_active && !p.is_deleted)

/-- ProductDeleteView.perform_destroy: the instance only has is_deleted set
to True and is saved; deleted_at is not assigned here. -/
def performDestroyProduct (p : Product) : Product :=
  { p with is_deleted := true }

/-- The delete endpoint at store level: the view queryset is unfiltered, the
instance is looked up by slug, soft-flagged and saved back in place. -/
def productDeleteEndpoint (db : DB) (slug : String) : Option DB :=
  match db.products.find? (fun p => p.slug == slug) with
  | none => none
  | some p =>
    some { db with products := updateProductRow db.products (performDestroyProduct p) }

/-- Unit price the specification text assigns to an order item: the variant
price when a variant id is given, else the product price. Written from the
words of the claim, to be compared with computeSubtotal. -/
def claimedUnitPrice (db : DB) (i : OrderItemInput) : ℚ :=
  if hasVariant i then
    match getActiveVariant db (variantIdOf i) i.product_id with
    | some v => v.price
    | none => 0
  else
    match getActiveProduct db i.product_id with
    | some p => p.price
    | none => 0

/-- Subtotal the specification text describes: the sum over the items of
quantity times unit price. Written from the words of the claim, to be
compared with computeSubtotal. -/
def claimedSubtotal (db : DB) (items : List OrderItemInput) : ℚ :=
  (items.map (fun i => (i.quantity : ℚ) * claimedUnitPrice db i)).sum

/-! Helper lemmas shared by the claim theorems. -/

theorem strUpper_strTake_length (u : String) (h : 8 ≤ u.length) :
    (strUpper (strTake u 8)).length = 8 := by
  show (List.map Char.toUpper ((u.data).take 8)).length = 8
  rw [List.length_map, List.length_take]
  have hu : u.length = u.data.length := rfl
  omega

theorem Order.save_frame (o : Order) (d u : String) :
    (Order.save o d u).id = o.id ∧
    (Order.save o d u).user = o.user ∧
    (Order.save o d u).status = o.status ∧
    (Order.save o d u).payment_status = o.payment_status ∧
    (Order.save o d u).subtotal = o.subtotal ∧
    (Order.save o d u).tax_amount = o.tax_amount ∧
    (Order.save o d u).shipping_amount = o.shipping_amount ∧
    (Order.save o d u).discount_amount = o.discount_amount ∧
    (Order.save o d u).total_amount = o.total_amount ∧
    (Order.save o d u).notes = o.notes := by
  unfold Order.save
  split <;> simp

theorem getActiveProduct_spec (db : DB) (pid : Nat) (p : Product)
    (h : getActiveProduct db pid = some p) :
    p.id = pid ∧ p.is_active = true ∧ p.is_deleted = false := by
  have hf := List.find?_some h
  simp only [Bool.and_eq_true, beq_iff_eq, Bool.not_eq_true'] at hf
  exact ⟨hf.1.1, hf.1.2, hf.2⟩

theorem replaceFirstCartItem_length (l : List CartItem) (key : CartItem → Bool)
    (x : CartItem) : (replaceFirstCartItem l key x).length = l.length := by
  induction l with
  | nil => rfl
  | cons c rest ih =>
    unfold replaceFirstCartItem
    split <;> simp [ih]

theorem find?_replaceFirstCartItem (l : List CartItem) (key : CartItem → Bool)
    (x : CartItem) (hx : key x = true) (hl : (l.find? key).isSome) :
    (replaceFirstCartItem l key x).find? key = some x := by
  induction l with
  | nil => simp [List.find?] at hl
  | cons c rest ih =>
    unfold replaceFirstCartItem
    by_cases hc : key c
    · simp [hc, List.find?, hx]
    · simp only [hc]
      simp only [List.find?, hc] at hl ⊢
      · exact ih hl

theorem cartItems_filter_out (l : List CartItem) (uid : Nat) :
    (l.filter (fun ci => !(ci.cart_id == uid))).filter (fun ci => ci.cart_id == uid) = [] := by
  induction l with
  | nil => rfl
  | cons c rest ih =>
    by_cases hc : c.cart_id == uid <;> simp [List.filter, hc, ih]

theorem computeSubtotal_eq_claimed (db : DB) :
    ∀ (items : List OrderItemInput) (acc s : ℚ),
      computeSubtotal db items acc = .ok s → s = acc + claimedSubtotal db items := by
  intro items
  induction items with
  | nil =>
    intro acc s h
    simp only [computeSubtotal] at h
    cases h
    simp [claimedSubtotal]
  | cons i rest ih =>
    intro acc s h
    simp only [computeSubtotal] at h
    split at h
    · exact absurd h (by simp)
    · rename_i p hp
      have hpid := (getActiveProduct_spec db i.product_id p hp).1
      split at h
      · exact absurd h (by simp)
      · rename_i unit_price hup
        split at h
        · exact absurd h (by simp)
        · have hs := ih _ _ h
          rw [hs]
          have hcu : claimedUnitPrice db i = unit_price := by
            unfold claimedUnitPrice
            by_cases hv : hasVariant i <;> simp only [hv, if_true, if_false] at hup ⊢
            · rw [hpid] at hup
              split at hup
              · exact absurd hup (by simp)
              · rename_i v hv2
                rw [hv2]
                exact (by cases hup; rfl)
            · rw [hp]
              cases hup
              rfl
          simp only [claimedSubtotal, List.map_cons, List.sum_cons, hcu]
          ring

theorem createOrderItems_frame (oid : Nat) :
    ∀ (items : List OrderItemInput) (db db' : DB),
      createOrderItems oid db items = .ok db' →
      db'.orders = db.orders ∧ db'.status_history = db.status_history ∧
      db'.cart_items = db.cart_items ∧ db'.categories = db.categories ∧
      db'.variants = db.variants := by
  intro items
  induction items with
  | nil =>
    intro db db' h
    simp only [createOrderItems] at h
    cases h
    exact ⟨rfl, rfl, rfl, rfl, rfl⟩
  | cons i rest ih =>
    intro db db' h
    simp only [createOrderItems] at h
    split at h
    · exact absurd h (by simp)
    · split at h
      · exact absurd h (by simp)
      · have hf := ih _ _ h
        exact hf

theorem orderCreate_ok_split (db : DB) (uid : Nat) (inp : OrderCreateInput)
    (d u : String) (db' : DB) (o : Order)
    (h : orderCreate db uid inp d u = .ok (db', o)) :
    ∃ subtotal : ℚ,
      computeSubtotal db inp.items 0 = .ok subtotal ∧
      o = mkOrder db.orders.length uid inp.fields subtotal (subtotal * (1 / 10)) 10 0
            (subtotal + subtotal * (1 / 10) + 10 - 0) d u ∧
      db'.orders = db.orders ++ [o] ∧
      db'.status_history = db.status_history ∧
      db'.cart_items = db.cart_items := by
  unfold orderCreate at h
  split at h
  · exact absurd h (by simp)
  · split at h
    · exact absurd h (by simp)
    · rename_i s hs
      dsimp only at h
      split at h
      · exact absurd h (by simp)
      · rename_i db2 hc
        simp only [Except.ok.injEq, Prod.mk.injEq] at h
        obtain ⟨h1, h2⟩ := h
        subst h1 h2
        have hf := createOrderItems_frame db.orders.length inp.items _ _ hc
        refine ⟨s, hs, rfl, ?_, hf.2.1, hf.2.2.1⟩
        rw [hf.1]

/-! Claim theorems. -/

theorem mkOrder_fields (oid uid : Nat) (f : OrderFields) (st tx sh di tot : ℚ)
    (d u : String) :
    (mkOrder oid uid f st tx sh di tot d u).subtotal = st ∧
    (mkOrder oid uid f st tx sh di tot d u).tax_amount = tx ∧
    (mkOrder oid uid f st tx sh di tot d u).shipping_amount = sh ∧
    (mkOrder oid uid f st tx sh di tot d u).discount_amount = di ∧
    (mkOrder oid uid f st tx sh di tot d u).total_amount = tot ∧
    (mkOrder oid uid f st tx sh di tot d u).status = "pending" ∧
    (mkOrder oid uid f st tx sh di tot d u).id = oid := by
  unfold mkOrder Order.save
  split <;> simp

/-- C3: for every OrderItem and every CartItem, after save the stored
total_price equals quantity times unit_price, whatever total_price was
supplied before saving, because save recomputes it. -/
theorem item_save_total_price :
    (∀ it : OrderItem, (OrderItem.save it).total_price =
        ((OrderItem.save it).quantity : ℚ) * (OrderItem.save it).unit_price) ∧
    (∀ ci : CartItem, (CartItem.save ci).total_price =
        ((CartItem.save ci).quantity : ℚ) * (CartItem.save ci).unit_price) ∧
    (∀ (it : OrderItem) (x : ℚ),
        OrderItem.save { it with total_price := x } = OrderItem.save it) ∧
    (∀ (ci : CartItem) (x : ℚ),
        CartItem.save { ci with total_price := x } = CartItem.save ci) := by
  refine ⟨fun it => ?_, fun ci => ?_, fun it x => ?_, fun ci x => ?_⟩ <;>
    simp [OrderItem.save, CartItem.save]

/-- C6: the first save of an order with an empty order number assigns
ORD-, the date, and an uppercased 8 character suffix of the uuid; a save of
an order whose number is set leaves it unchanged. -/
theorem order_number_on_save (o : Order) (d u : String) :
    (o.order_number = "" →
      (Order.save o d u).order_number = "ORD-" ++ d ++ "-" ++ strUpper (strTake u 8) ∧
      (8 ≤ u.length → (strUpper (strTake u 8)).length = 8)) ∧
    (o.order_number ≠ "" → (Order.save o d u).order_number = o.order_number) := by
  constructor
  · intro h
    exact ⟨by simp [Order.save, h, generate_order_number], fun hu => strUpper_strTake_length u hu⟩
  · intro h
    simp [Order.save, h]

/-- C9: checkout with an empty cart returns a 400 response with the message
Cart is empty. and leaves the store untouched, so no order, no order item and
no history entry is created. -/
theorem checkout_empty_cart (db : DB) (uid : Nat) (f : OrderFields) (d u : String)
    (h : cartItemsOf db uid = []) :
    checkout db uid f d u = (db, .badRequest "Cart is empty.") := by
  unfold checkout
  simp [h]

/-- C10: updating an order through the detail endpoint changes at most notes
and the two shipping address lines; status, payment status, every pricing
total, every billing field, the other shipping fields and the order number
are untouched, whatever the request supplies. -/
theorem order_update_frame (o : Order) (vd : OrderUpdateData) (d u : String)
    (h : o.order_number ≠ "") :
    (performUpdateOrder o vd d u).status = o.status ∧
    (performUpdateOrder o vd d u).payment_status = o.payment_status ∧
    (performUpdateOrder o vd d u).subtotal = o.subtotal ∧
    (performUpdateOrder o vd d u).tax_amount = o.tax_amount ∧
    (performUpdateOrder o vd d u).shipping_amount = o.shipping_amount ∧
    (performUpdateOrder o vd d u).discount_amount = o.discount_amount ∧
    (performUpdateOrder o vd d u).total_amount = o.total_amount ∧
    (performUpdateOrder o vd d u).billing_first_name = o.billing_first_name ∧
    (performUpdateOrder o vd d u).billing_last_name = o.billing_last_name ∧
    (performUpdateOrder o vd d u).billing_email = o.billing_email ∧
    (performUpdateOrder o vd d u).billing_phone = o.billing_phone ∧
    (performUpdateOrder o vd d u).billing_address_line_1 = o.billing_address_line_1 ∧
    (performUpdateOrder o vd d u).billing_address_line_2 = o.billing_address_line_2 ∧
    (performUpdateOrder o vd d u).billing_city = o.billing_city ∧
    (performUpdateOrder o vd d u).billing_state = o.billing_state ∧
    (performUpdateOrder o vd d u).billing_postal_code = o.billing_postal_code ∧
    (performUpdateOrder o vd d u).billing_country = o.billing_country ∧
    (performUpdateOrder o vd d u).shipping_first_name = o.shipping_first_name ∧
    (performUpdateOrder o vd d u).shipping_last_name = o.shipping_last_name ∧
    (performUpdateOrder o vd d u).shipping_phone = o.shipping_phone ∧
    (performUpdateOrder o vd d u).shipping_city = o.shipping_city ∧
    (performUpdateOrder o vd d u).shipping_state = o.shipping_state ∧
    (performUpdateOrder o vd d u).shipping_postal_code = o.shipping_postal_code ∧
    (performUpdateOrder o vd d u).shipping_country = o.shipping_country ∧
    (performUpdateOrder o vd d u).tracking_number = o.tracking_number ∧
    (performUpdateOrder o vd d u).shipped_at = o.shipped_at ∧
    (performUpdateOrder o vd d u).delivered_at = o.delivered_at ∧
    (performUpdateOrder o vd d u).user = o.user ∧
    (performUpdateOrder o vd d u).id = o.id ∧
    (performUpdateOrder o vd d u).order_number = o.order_number := by
  unfold performUpdateOrder Order.save
  rcases vd.notes with _ | s1 <;>
    rcases vd.shipping_address_line_1 with _ | s2 <;>
      rcases vd.shipping_address_line_2 with _ | s3 <;>
        simp [h]

/-- C2: every order created by OrderCreateSerializer.create satisfies
total_amount = subtotal + tax_amount + shipping_amount - discount_amount,
with the subtotal summing quantity times resolved unit price over the items,
tax a tenth of the subtotal, shipping fixed at 10.00 and discount 0.00. -/
theorem order_create_totals (db : DB) (uid : Nat) (inp : OrderCreateInput)
    (d u : String) (db' : DB) (o : Order)
    (h : orderCreate db uid inp d u = .ok (db', o)) :
    o.total_amount = o.subtotal + o.tax_amount + o.shipping_amount - o.discount_amount ∧
    o.subtotal = claimedSubtotal db inp.items ∧
    o.tax_amount = o.subtotal * (1 / 10) ∧
    o.shipping_amount = 10 ∧
    o.discount_amount = 0 := by
  obtain ⟨s, hs, ho, -, -, -⟩ := orderCreate_ok_split db uid inp d u db' o h
  have hsum := computeSubtotal_eq_claimed db inp.items 0 s hs
  obtain ⟨f1, f2, f3, f4, f5, -, -⟩ :=
    mkOrder_fields db.orders.length uid inp.fields s (s * (1 / 10)) 10 0
      (s + s * (1 / 10) + 10 - 0) d u
  rw [ho, f1, f2, f3, f4, f5]
  refine ⟨by ring, ?_, rfl, rfl, rfl⟩
  rw [hsum]
  ring

/-- C8: checkout is atomic for the cart: a 201 leaves the cart empty with the
new order and exactly one pending history entry appended in the same step,
and a 400 leaves the whole store exactly as it was, so no order exists and
the cart rows survive. -/
theorem checkout_cart_atomic (db : DB) (uid : Nat) (f : OrderFields) (d u : String) :
    (∀ db' o, checkout db uid f d u = (db', .created o) →
        cartItemsOf db' uid = [] ∧
        db'.orders = db.orders ++ [o] ∧
        db'.status_history = db.status_history ++
          [{ order_id := o.id, status := "pending", notes := "Order created",
             changed_by := some uid }]) ∧
    (∀ db' e, checkout db uid f d u = (db', .badRequest e) → db' = db) := by
  constructor
  · intro db' o h
    unfold checkout at h
    dsimp only at h
    split at h
    · exact absurd h (by simp)
    · split at h
      · exact absurd h (by simp)
      · rename_i res db1 order hoc
        simp only [Prod.mk.injEq, HttpResp.created.injEq] at h
        obtain ⟨h1, h2⟩ := h
        subst h1 h2
        obtain ⟨-, -, -, horders, hhist, hcart⟩ :=
          orderCreate_ok_split db uid _ d u db1 order hoc
        refine ⟨?_, ?_, ?_⟩
        · show (db1.cart_items.filter (fun ci => !(ci.cart_id == uid))).filter
            (fun ci => ci.cart_id == uid) = []
          exact cartItems_filter_out db1.cart_items uid
        · exact horders
        · show db1.status_history ++ _ = _
          rw [hhist]
  · intro db' e h
    unfold checkout at h
    dsimp only at h
    split at h
    · simp only [Prod.mk.injEq] at h
      exact h.1.symm
    · split at h
      · simp only [Prod.mk.injEq] at h
        exact h.1.symm
      · exact absurd h (by simp)

/-- C7: order status history is append only: a successful checkout appends
exactly one pending entry, a successful cancellation appends exactly one
cancelled entry, a refused cancellation, an order creation and a cart
addition leave the history untouched, and no modelled operation rewrites or
drops an existing entry. -/
theorem status_history_append_only (db : DB) (uid : Nat) (f : OrderFields)
    (o : Order) (d u : String) :
    (∀ db' o', checkout db uid f d u = (db', .created o') →
        db'.status_history = db.status_history ++
          [{ order_id := o'.id, status := "pending", notes := "Order created",
             changed_by := some uid }]) ∧
    (∀ db' e, checkout db uid f d u = (db', .badRequest e) →
        db'.status_history = db.status_history) ∧
    (∀ db', orderCancel db o uid d u = .ok db' →
        db'.status_history = db.status_history ++
          [{ order_id := o.id, status := "cancelled",
             notes := "Order cancelled by user", changed_by := some uid }]) ∧
    (∀ e, orderCancel db o uid d u = .error e → o.can_be_cancelled = false) ∧
    (∀ (inp : OrderCreateInput) (db2 : DB) (o' : Order),
        orderCreate db uid inp d u = .ok (db2, o') →
        db2.status_history = db.status_history) ∧
    (∀ (cid : Nat) (i : OrderItemInput) (db2 : DB) (ci : CartItem),
        cartAddItem db cid i = .ok (db2, ci) →
        db2.status_history = db.status_history) := by
  refine ⟨?_, ?_, ?_, ?_, ?_, ?_⟩
  · intro db' o' h
    unfold checkout at h
    dsimp only at h
    split at h
    · exact absurd h (by simp)
    · split at h
      · exact absurd h (by simp)
      · rename_i res db1 order hoc
        simp only [Prod.mk.injEq, HttpResp.created.injEq] at h
        obtain ⟨h1, h2⟩ := h
        subst h1 h2
        obtain ⟨-, -, -, -, hhist, -⟩ := orderCreate_ok_split db uid _ d u db1 order hoc
        show db1.status_history ++ _ = _
        rw [hhist]
  · intro db' e h
    unfold checkout at h
    dsimp only at h
    split at h
    · simp only [Prod.mk.injEq] at h
      rw [← h.1]
    · split at h
      · simp only [Prod.mk.injEq] at h
        rw [← h.1]
      · exact absurd h (by simp)
  · intro db' h
    unfold orderCancel at h
    split at h
    · simp only [Except.ok.injEq] at h
      rw [← h]
    · exact absurd h (by simp)
  · intro e h
    unfold orderCancel at h
    split at h
    · exact absurd h (by simp)
    · rename_i hc
      exact Bool.not_eq_true _ ▸ (by simpa using hc)
  · intro inp db2 o' h
    obtain ⟨-, -, -, -, hh, -⟩ := orderCreate_ok_split db uid inp d u db2 o' h
    exact hh
  · intro cid i db2 ci h
    unfold cartAddItem at h
    split at h
    · exact absurd h (by simp)
    · split at h
      · exact absurd h (by simp)
      · split at h <;>
          · simp only [Except.ok.injEq, Prod.mk.injEq] at h
            rw [← h.1]

/-- C4: adding to the cart for a (product, variant) pair already present
updates that row in place, incrementing its quantity by the requested amount
and keeping the row count, while a pair not yet in the cart appends exactly
one new row carrying the requested quantity and the current resolved price. -/
theorem cart_add_collapses (db : DB) (cartId : Nat) (i : OrderItemInput)
    (p : Product) (vidOpt : Option Nat) (price : ℚ) (db2 : DB) (ci : CartItem)
    (hp : getProduct db i.product_id = some p)
    (hr : resolveCartPrice db i p = .ok (vidOpt, price))
    (h : cartAddItem db cartId i = .ok (db2, ci)) :
    (∀ old, findCartItem db cartId p.id vidOpt = some old →
        db2.cart_items.length = db.cart_items.length ∧
        ci.quantity = old.quantity + i.quantity ∧
        ci.unit_price = old.unit_price ∧
        findCartItem db2 cartId p.id vidOpt = some ci) ∧
    (findCartItem db cartId p.id vidOpt = none →
        db2.cart_items = db.cart_items ++ [ci] ∧
        ci.quantity = i.quantity ∧
        ci.unit_price = price ∧
        ci.cart_id = cartId ∧ ci.product_id = p.id ∧
        ci.product_variant_id = vidOpt) := by
  unfold cartAddItem at h
  rw [hp] at h
  dsimp only at h
  rw [hr] at h
  dsimp only at h
  constructor
  · intro old hold
    rw [hold] at h
    dsimp only at h
    simp only [Except.ok.injEq, Prod.mk.injEq] at h
    obtain ⟨h1, h2⟩ := h
    subst h1 h2
    have hkeyold := List.find?_some hold
    have hkeyci : cartKey cartId p.id vidOpt
        (CartItem.save { old with quantity := old.quantity + i.quantity }) = true := by
      simp only [cartKey, CartItem.save, Bool.and_eq_true] at hkeyold ⊢
      exact hkeyold
    refine ⟨?_, rfl, rfl, ?_⟩
    · exact replaceFirstCartItem_length db.cart_items _ _
    · show (replaceFirstCartItem db.cart_items (cartKey cartId p.id vidOpt) _).find? _ = _
      refine find?_replaceFirstCartItem db.cart_items _ _ hkeyci ?_
      rw [show db.cart_items.find? (cartKey cartId p.id vidOpt) =
        findCartItem db cartId p.id vidOpt from rfl, hold]
      rfl
  · intro hnone
    rw [hnone] at h
    dsimp only at h
    simp only [Except.ok.injEq, Prod.mk.injEq] at h
    obtain ⟨h1, h2⟩ := h
    subst h1 h2
    exact ⟨rfl, rfl, rfl, rfl, rfl, rfl⟩

/-! Concrete stores and records used by the closed evaluations and by the
witnesses of the hypothesis-carrying theorems. -/

/-- Blank billing and shipping fields, as the checkout view defaults every
missing request key to the empty string. -/
def exFields : OrderFields :=
  { billing_first_name := "", billing_last_name := "", billing_email := "",
    billing_phone := "", billing_address_line_1 := "", billing_address_line_2 := "",
    billing_city := "", billing_state := "", billing_postal_code := "",
    billing_country := "", shipping_first_name := "", shipping_last_name := "",
    shipping_phone := "", shipping_address_line_1 := "", shipping_address_line_2 := "",
    shipping_city := "", shipping_state := "", shipping_postal_code := "",
    shipping_country := "", notes := "" }

/-- A live product with five units in stock. -/
def pC1 : Product :=
  { id := 1, name := "Widget", slug := "widget", description := "A widget",
    short_description := "widget", tags := "widget", price := 20,
    stock_quantity := 5, category_id := 1, is_active := true,
    is_featured := false, is_deleted := false, deleted_at := none }

/-- Two active variants of the same product. -/
def vC1a : ProductVariant := { id := 1, product_id := 1, price := 20, is_active := true }

def vC1b : ProductVariant := { id := 2, product_id := 1, price := 20, is_active := true }

def dbC1 : DB :=
  { categories := [], products := [pC1], variants := [vC1a, vC1b], orders := [],
    order_items := [], status_history := [], cart_items := [] }

/-- C1: on an order whose two items reference the same product through two
different variants, quantities 3 and 3 against a stored stock of 5, every
per-item stock check passes, both decrements apply, the serializer reports
success, and the stored stock quantity ends at minus one. -/
theorem order_create_stock_goes_negative :
    (orderCreate dbC1 1
        { fields := exFields,
          items := [{ product_id := 1, product_variant_id := some 1, quantity := 3 },
                    { product_id := 1, product_variant_id := some 2, quantity := 3 }] }
        "20260101" "abcd1234").toOption.map
      (fun r => (getProduct r.1 1).map Product.stock_quantity) = some (some (-1)) := by
  decide

/-- A live product used by the delete endpoint evaluation. -/
def pC5 : Product :=
  { id := 1, name := "Widget", slug := "widget", description := "A widget",
    short_description := "widget", tags := "widget", price := 20,
    stock_quantity := 5, category_id := 1, is_active := true,
    is_featured := false, is_deleted := false, deleted_at := none }

def dbC5 : DB :=
  { categories := [], products := [pC5], variants := [], orders := [],
    order_items := [], status_history := [], cart_items := [] }

/-- C5 as stated is false: the delete endpoint flags the row as deleted but
stores no deletion timestamp, so on a live product with deleted_at empty the
row afterwards has is_deleted true and deleted_at still none. -/
theorem product_delete_leaves_no_timestamp :
    (productDeleteEndpoint dbC5 "widget").map
      (fun db => (getProduct db 1).map (fun p => (p.is_deleted, p.deleted_at))) =
      some (some (true, none)) := by
  decide

/-- C5 amended: the delete endpoint retains the row and marks is_deleted
without touching deleted_at (only the model delete method stamps the
timestamp), and every default or public query over products and categories
excludes rows marked deleted. -/
theorem soft_delete_marks_and_queries_exclude (db : DB) (p : Product)
    (c : Category) (slug q cslug : String) (now : Nat)
    (hp : p.is_deleted = true) (hc : c.is_deleted = true) :
    ((performDestroyProduct p).is_deleted = true ∧
      (performDestroyProduct p).deleted_at = p.deleted_at) ∧
    ((Category.softDelete c now).is_deleted = true ∧
      (Category.softDelete c now).deleted_at = some now) ∧
    (∀ db2, productDeleteEndpoint db slug = some db2 →
        db2.products.length = db.products.length) ∧
    p ∉ productListQueryset db ∧
    p ∉ featuredProducts db ∧
    p ∉ productSearch db q ∧
    productDetail db slug ≠ some p ∧
    (∀ l, relatedProducts db slug = some l → p ∉ l) ∧
    c ∉ categoryListQueryset db ∧
    categoryDetail db cslug ≠ some c := by
  refine ⟨⟨rfl, rfl⟩, ⟨rfl, rfl⟩, ?_, ?_, ?_, ?_, ?_, ?_, ?_, ?_⟩
  · intro db2 h
    unfold productDeleteEndpoint at h
    split at h
    · exact absurd h (by simp)
    · simp only [Option.some.injEq] at h
      subst h
      show (updateProductRow db.products _).length = db.products.length
      exact List.length_map db.products _
  · intro hmem
    simp [productListQueryset, List.mem_filter, hp] at hmem
  · intro hmem
    have := List.mem_of_mem_take hmem
    simp [List.mem_filter, hp] at this
  · intro hmem
    unfold productSearch at hmem
    split at hmem
    · simp at hmem
    · simp [List.mem_filter, hp] at hmem
  · intro hfind
    have := List.mem_of_find?_eq_some hfind
    simp [productListQueryset, List.mem_filter, hp] at this
  · intro l hl hmem
    unfold relatedProducts at hl
    split at hl
    · exact absurd hl (by simp)
    · simp only [Option.some.injEq] at hl
      subst hl
      have h1 := List.mem_of_mem_take hmem
      have h2 := (List.mem_filter.mp h1).1
      simp [List.mem_filter, hp] at h2
  · intro hmem
    simp [categoryListQueryset, List.mem_filter, hc] at hmem
  · intro hfind
    have := List.mem_of_find?_eq_some hfind
    simp [categoryListQueryset, List.mem_filter, hc] at this

/-- A product already marked deleted and a category already marked deleted,
sitting in a store next to live rows. -/
def pC5del : Product :=
  { id := 2, name := "Gone", slug := "gone", description := "",
    short_description := "", tags := "", price := 5, stock_quantity := 1,
    category_id := 1, is_active := true, is_featured := true,
    is_deleted := true, deleted_at := some 7 }

def cC5del : Category :=
  { id := 1, name := "Old", slug := "old", is_active := true,
    is_deleted := true, deleted_at := some 7 }

def dbC5w : DB :=
  { categories := [cC5del], products := [pC5, pC5del], variants := [],
    orders := [], order_items := [], status_history := [], cart_items := [] }

theorem soft_delete_marks_and_queries_exclude_witness :
    (performDestroyProduct pC5del).deleted_at = pC5del.deleted_at ∧
    pC5del ∉ productListQueryset dbC5w ∧
    pC5del ∉ featuredProducts dbC5w ∧
    cC5del ∉ categoryListQueryset dbC5w := by
  obtain ⟨⟨-, h1⟩, -, -, h2, h3, -, -, -, h4, -⟩ :=
    soft_delete_marks_and_queries_exclude dbC5w pC5del cC5del "widget" "w" "old" 0
      rfl rfl
  exact ⟨h1, h2, h3, h4⟩

/-- Constructor discriminator used by the concrete evaluations. -/
def HttpResp.isCreated : HttpResp → Bool
  | .created _ => true
  | .badRequest _ => false

def pC2 : Product :=
  { id := 1, name := "Widget", slug := "widget", description := "A widget",
    short_description := "widget", tags := "widget", price := 20,
    stock_quantity := 10, category_id := 1, is_active := true,
    is_featured := false, is_deleted := false, deleted_at := none }

def dbC2 : DB :=
  { categories := [], products := [pC2], variants := [], orders := [],
    order_items := [], status_history := [], cart_items := [] }

def inpC2 : OrderCreateInput :=
  { fields := exFields,
    items := [{ product_id := 1, product_variant_id := none, quantity := 2 }] }

theorem order_create_totals_witness :
    ∃ (db2 : DB) (o : Order),
      orderCreate dbC2 1 inpC2 "20260101" "abcd1234" = .ok (db2, o) ∧
      o.total_amount = o.subtotal + o.tax_amount + o.shipping_amount - o.discount_amount ∧
      o.shipping_amount = 10 := by
  rcases hoc : orderCreate dbC2 1 inpC2 "20260101" "abcd1234" with e | ⟨db2, o⟩
  · have hk : (orderCreate dbC2 1 inpC2 "20260101" "abcd1234").toOption.isSome = true := by
      decide
    rw [hoc] at hk
    simp [Except.toOption] at hk
  · obtain ⟨h1, -, -, h4, -⟩ :=
      order_create_totals dbC2 1 inpC2 "20260101" "abcd1234" db2 o hoc
    exact ⟨db2, o, rfl, h1, h4⟩

def pC4 : Product :=
  { id := 1, name := "Widget", slug := "widget", description := "A widget",
    short_description := "widget", tags := "widget", price := 20,
    stock_quantity := 10, category_id := 1, is_active := true,
    is_featured := false, is_deleted := false, deleted_at := none }

def rowC4 : CartItem :=
  { cart_id := 1, product_id := 1, product_variant_id := none, quantity := 2,
    unit_price := 20, total_price := 40 }

def dbC4 : DB :=
  { categories := [], products := [pC4], variants := [], orders := [],
    order_items := [], status_history := [], cart_items := [rowC4] }

def dbC4b : DB :=
  { categories := [], products := [pC4], variants := [], orders := [],
    order_items := [], status_history := [], cart_items := [] }

def addC4 : OrderItemInput :=
  { product_id := 1, product_variant_id := none, quantity := 3 }

theorem cart_add_collapses_witness :
    (∃ db2 ci, cartAddItem dbC4 1 addC4 = .ok (db2, ci) ∧
        db2.cart_items.length = dbC4.cart_items.length ∧
        ci.quantity = rowC4.quantity + addC4.quantity) ∧
    (∃ db2 ci, cartAddItem dbC4b 1 addC4 = .ok (db2, ci) ∧
        db2.cart_items = dbC4b.cart_items ++ [ci] ∧
        ci.quantity = addC4.quantity) := by
  constructor
  · rcases hadd : cartAddItem dbC4 1 addC4 with e | ⟨db2, ci⟩
    · have hk : (cartAddItem dbC4 1 addC4).toOption.isSome = true := by decide
      rw [hadd] at hk
      simp [Except.toOption] at hk
    · have h := (cart_add_collapses dbC4 1 addC4 pC4 none 20 db2 ci rfl rfl hadd).1 rowC4 rfl
      exact ⟨db2, ci, rfl, h.1, h.2.1⟩
  · rcases hadd : cartAddItem dbC4b 1 addC4 with e | ⟨db2, ci⟩
    · have hk : (cartAddItem dbC4b 1 addC4).toOption.isSome = true := by decide
      rw [hadd] at hk
      simp [Except.toOption] at hk
    · have h := (cart_add_collapses dbC4b 1 addC4 pC4 none 20 db2 ci rfl rfl hadd).2 rfl
      exact ⟨db2, ci, rfl, h.1, h.2.1⟩

def oC6 : Order :=
  { id := 1, user := 1, order_number := "", status := "pending",
    payment_status := "pending", subtotal := 100, tax_amount := 10,
    shipping_amount := 10, discount_amount := 0, total_amount := 120,
    billing_first_name := "John", billing_last_name := "Doe",
    billing_email := "j@example.com", billing_phone := "1",
    billing_address_line_1 := "123 Main St", billing_address_line_2 := "",
    billing_city := "C", billing_state := "S", billing_postal_code := "1",
    billing_country := "X", shipping_first_name := "John",
    shipping_last_name := "Doe", shipping_phone := "1",
    shipping_address_line_1 := "123 Main St", shipping_address_line_2 := "",
    shipping_city := "C", shipping_state := "S", shipping_postal_code := "1",
    shipping_country := "X", notes := "", tracking_number := "",
    shipped_at := none, delivered_at := none, is_deleted := false,
    deleted_at := none }

def oC6b : Order := { oC6 with order_number := "ORD-OLD" }

theorem order_number_on_save_witness :
    (Order.save oC6 "20260101" "abcd1234-ef01").order_number =
      "ORD-" ++ "20260101" ++ "-" ++ strUpper (strTake "abcd1234-ef01" 8) ∧
    (strUpper (strTake "abcd1234-ef01" 8)).length = 8 ∧
    (Order.save oC6b "20260101" "abcd1234-ef01").order_number = oC6b.order_number := by
  refine ⟨((order_number_on_save oC6 "20260101" "abcd1234-ef01").1 rfl).1,
    ((order_number_on_save oC6 "20260101" "abcd1234-ef01").1 rfl).2 (by decide),
    (order_number_on_save oC6b "20260101" "abcd1234-ef01").2 (by decide)⟩

def pC7 : Product :=
  { id := 1, name := "Widget", slug := "widget", description := "A widget",
    short_description := "widget", tags := "widget", price := 20,
    stock_quantity := 10, category_id := 1, is_active := true,
    is_featured := false, is_deleted := false, deleted_at := none }

def dbC7 : DB :=
  { categories := [], products := [pC7], variants := [], orders := [],
    order_items := [], status_history := [],
    cart_items := [{ cart_id := 1, product_id := 1, product_variant_id := none,
                     quantity := 2, unit_price := 20, total_price := 40 }] }

def oC7 : Order := { oC6 with order_number := "ORD-OLD2" }

theorem status_history_append_only_witness :
    (∃ db2 o2, checkout dbC7 1 exFields "20260101" "abcd1234" = (db2, .created o2) ∧
        db2.status_history = dbC7.status_history ++
          [{ order_id := o2.id, status := "pending", notes := "Order created",
             changed_by := some 1 }]) ∧
    (∃ db2, orderCancel dbC7 oC7 1 "20260101" "abcd1234" = .ok db2 ∧
        db2.status_history = dbC7.status_history ++
          [{ order_id := oC7.id, status := "cancelled",
             notes := "Order cancelled by user", changed_by := some 1 }]) := by
  constructor
  · rcases hck : checkout dbC7 1 exFields "20260101" "abcd1234" with ⟨db2, resp⟩
    rcases resp with o2 | e
    · exact ⟨db2, o2, rfl,
        (status_history_append_only dbC7 1 exFields oC7 "20260101" "abcd1234").1 db2 o2 hck⟩
    · have hk : ((checkout dbC7 1 exFields "20260101" "abcd1234").2).isCreated = true := by
        decide
      rw [hck] at hk
      simp [HttpResp.isCreated] at hk
  · rcases hcan : orderCancel dbC7 oC7 1 "20260101" "abcd1234" with e | db2
    · have hfalse :=
        (status_history_append_only dbC7 1 exFields oC7 "20260101" "abcd1234").2.2.2.1 e hcan
      exact absurd hfalse (by decide)
    · exact ⟨db2, rfl,
        (status_history_append_only dbC7 1 exFields oC7 "20260101" "abcd1234").2.2.1 db2 hcan⟩

def dbC8bad : DB :=
  { categories := [], products := [], variants := [], orders := [],
    order_items := [], status_history := [],
    cart_items := [{ cart_id := 1, product_id := 99, product_variant_id := none,
                     quantity := 1, unit_price := 5, total_price := 5 }] }

theorem checkout_cart_atomic_witness :
    (∃ db2 o2, checkout dbC7 1 exFields "20260102" "bbbb2345" = (db2, .created o2) ∧
        cartItemsOf db2 1 = [] ∧ db2.orders = dbC7.orders ++ [o2]) ∧
    (∃ db2 e, checkout dbC8bad 1 exFields "20260102" "bbbb2345" = (db2, .badRequest e) ∧
        db2 = dbC8bad) := by
  constructor
  · rcases hck : checkout dbC7 1 exFields "20260102" "bbbb2345" with ⟨db2, resp⟩
    rcases resp with o2 | e
    · have h := (checkout_cart_atomic dbC7 1 exFields "20260102" "bbbb2345").1 db2 o2 hck
      exact ⟨db2, o2, rfl, h.1, h.2.1⟩
    · have hk : ((checkout dbC7 1 exFields "20260102" "bbbb2345").2).isCreated = true := by
        decide
      rw [hck] at hk
      simp [HttpResp.isCreated] at hk
  · rcases hck : checkout dbC8bad 1 exFields "20260102" "bbbb2345" with ⟨db2, resp⟩
    rcases resp with o2 | e
    · have hk : ((checkout dbC8bad 1 exFields "20260102" "bbbb2345").2).isCreated = false := by
        decide
      rw [hck] at hk
      simp [HttpResp.isCreated] at hk
    · exact ⟨db2, e, rfl,
        (checkout_cart_atomic dbC8bad 1 exFields "20260102" "bbbb2345").2 db2 e hck⟩

def dbC9 : DB :=
  { categories := [], products := [], variants := [], orders := [],
    order_items := [], status_history := [], cart_items := [] }

theorem checkout_empty_cart_witness :
    checkout dbC9 1 exFields "20260101" "abcd1234" = (dbC9, .badRequest "Cart is empty.") :=
  checkout_empty_cart dbC9 1 exFields "20260101" "abcd1234" rfl

def oC10 : Order := { oC6 with order_number := "ORD-X", status := "confirmed" }

def vdC10 : OrderUpdateData :=
  { status := some "delivered", payment_status := some "paid",
    billing_first_name := some "E", billing_last_name := some "E",
    billing_email := some "e@example.com", billing_phone := some "9",
    billing_address_line_1 := some "9 Elm", billing_address_line_2 := some "9",
    billing_city := some "E", billing_state := some "E",
    billing_postal_code := some "9", billing_country := some "E",
    shipping_first_name := some "E", shipping_last_name := some "E",
    shipping_phone := some "9", shipping_address_line_1 := some "9 Elm",
    shipping_address_line_2 := some "9", shipping_city := some "E",
    shipping_state := some "E", shipping_postal_code := some "9",
    shipping_country := some "E", notes := some "hello",
    tracking_number := some "T" }

theorem order_update_frame_witness :
    (performUpdateOrder oC10 vdC10 "20260101" "abcd1234").status = oC10.status ∧
    (performUpdateOrder oC10 vdC10 "20260101" "abcd1234").payment_status =
      oC10.payment_status := by
  have h := order_update_frame oC10 vdC10 "20260101" "abcd1234" (by decide)
  exact ⟨h.1, h.2.1⟩

end Shop
